import Mathlib

/-!
Shallow embedding of the instruction-execution engine of the CPU simulator
(`src/lib/cpu-logic.ts`, types in `src/lib/types.ts`, step application in
`src/components/cpu-simulator.tsx`).

Modelling conventions:
* JS numbers that the engine stores in registers and memory are modelled as
  `Int` (the engine performs only integer arithmetic on them).
* A JS array read `memory[i]` yields `undefined` when `i` is outside
  `[0, memory.length)`; such possibly-absent values are modelled as
  `Option Int`, with `none` standing for `undefined`.
* A JS object field that may be missing altogether (`registerChanges?`,
  `memoryChanges?`) is an `Option` of an association list; `some []` models a
  present-but-empty object literal `{}` while `none` models an absent field.
* JS bitwise operators first convert their operands to 32-bit signed
  integers (`ToInt32`); this conversion is modelled explicitly.
* `Math.floor(a / b)` on integers is flooring division (`Int.fdiv`), and the
  JS remainder operator `%` truncates toward zero (`Int.tmod`).
-/

namespace CpuSim

/-- `phase` field of `ExecutionStep` (types.ts line 32). -/
inductive Phase where
  | fetch
  | decode
  | execute
  | memory
  | writeback
deriving DecidableEq, Repr

/-- `type` field of `Instruction` (types.ts line 5). -/
inductive InstrType where
  | arithmetic
  | logical
  | data
  | control
  | io
deriving DecidableEq, Repr

/-- `Instruction` interface (types.ts lines 1-8). -/
structure Instruction where
  id : Int
  mnemonic : String
  description : String
  type : InstrType
  operands : Int
  beginner_explanation : Option String := none
deriving DecidableEq, Repr

/-- `RegisterState` interface (types.ts lines 10-19): the seven required
register keys. The TS index signature additionally admits extra string keys;
those are modelled separately at the JS-object level by `RegMap` below. -/
structure RegisterState where
  AX : Int
  BX : Int
  CX : Int
  DX : Int
  PC : Int
  SP : Int
  FLAGS : Int
deriving DecidableEq, Repr

/-- `ExecutionStep` interface (types.ts lines 31-36). `registerChanges` maps
register names to new values (`none` value = JS `undefined`); `memoryChanges`
maps string-encoded addresses to new values. -/
structure ExecutionStep where
  phase : Phase
  description : String
  registerChanges : Option (List (String × Option Int)) := none
  memoryChanges : Option (List (String × Int)) := none
deriving DecidableEq, Repr

/-- JS `ToUint32` of an integer. -/
def toUint32 (n : Int) : Nat := (n.emod (2 ^ 32)).toNat

/-- JS `ToInt32` of an integer (the conversion applied to bitwise operands). -/
def toInt32 (n : Int) : Int :=
  if toUint32 n < 2 ^ 31 then (toUint32 n : Int) else (toUint32 n : Int) - 2 ^ 32

/-- JS `a & b` on integers. -/
def jsAnd (a b : Int) : Int := toInt32 (Nat.land (toUint32 a) (toUint32 b))

/-- JS `a | b` on integers. -/
def jsOr (a b : Int) : Int := toInt32 (Nat.lor (toUint32 a) (toUint32 b))

/-- JS `~a` on integers. -/
def jsNot (a : Int) : Int := toInt32 (Nat.xor (toUint32 a) (2 ^ 32 - 1))

/-- JS array indexing `memory[i]`: `undefined` (`none`) outside bounds. -/
def jsIndex (memory : List Int) (i : Int) : Option Int :=
  if i < 0 then none else memory.get? i.toNat

/-- JS `v || 0` applied to a possibly-undefined array read: `undefined`
and `0` are falsy, every other integer is truthy. -/
def orZero (v : Option Int) : Int :=
  match v with
  | some x => if x = 0 then 0 else x
  | none => 0

/-- The fixed memory-access mnemonic list of cpu-logic.ts line 313. -/
def memoryMnemonics : List String :=
  ["PUSH AX", "POP BX", "JMP 0x100", "MOV AX, [100]", "MOV [200], BX",
   "CALL 0x400", "RET"]

/-- The execute-phase step pushed by the `switch` of cpu-logic.ts lines
26-309. Each `case` (and the `default`) pushes exactly one step, so the
switch is embedded as the function computing that step; the `case` guards of
the TS `switch` become an if-chain on the mnemonic string. -/
def executeStepOf (instruction : Instruction) (registers : RegisterState)
    (memory : List Int) : ExecutionStep :=
  if instruction.mnemonic = "MOV AX, 42" then
    { phase := .execute, description := "Moving value 42 to register AX",
      registerChanges := some [("AX", some 42)] }
  else if instruction.mnemonic = "MOV BX, AX" then
    { phase := .execute, description := "Copying value from AX to BX",
      registerChanges := some [("BX", some registers.AX)] }
  else if instruction.mnemonic = "ADD AX, BX" then
    { phase := .execute, description := "Adding BX to AX",
      registerChanges := some
        [("AX", some (registers.AX + registers.BX)),
         ("FLAGS", some (if registers.AX + registers.BX = 0 then 1 else 0))] }
  else if instruction.mnemonic = "SUB CX, DX" then
    { phase := .execute, description := "Subtracting DX from CX",
      registerChanges := some
        [("CX", some (registers.CX - registers.DX)),
         ("FLAGS", some (if registers.CX - registers.DX = 0 then 1 else 0))] }
  else if instruction.mnemonic = "MUL BX" then
    { phase := .execute, description := "Multiplying AX by BX",
      registerChanges := some
        [("AX", some (registers.AX * registers.BX)),
         ("FLAGS", some (if registers.AX * registers.BX = 0 then 1 else 0))] }
  else if instruction.mnemonic = "DIV CX" then
    if registers.CX = 0 then
      { phase := .execute, description := "Error: Division by zero",
        registerChanges := some [("FLAGS", some 1)] }
    else
      { phase := .execute, description := "Dividing AX by CX",
        registerChanges := some
          [("AX", some (Int.fdiv registers.AX registers.CX)),
           ("DX", some (Int.tmod registers.AX registers.CX)),
           ("FLAGS", some (if Int.fdiv registers.AX registers.CX = 0 then 1 else 0))] }
  else if instruction.mnemonic = "AND AX, 0xFF" then
    { phase := .execute, description := "Performing bitwise AND on AX with 0xFF",
      registerChanges := some
        [("AX", some (jsAnd registers.AX 0xff)),
         ("FLAGS", some (if jsAnd registers.AX 0xff = 0 then 1 else 0))] }
  else if instruction.mnemonic = "OR BX, CX" then
    { phase := .execute, description := "Performing bitwise OR on BX with CX",
      registerChanges := some
        [("BX", some (jsOr registers.BX registers.CX)),
         ("FLAGS", some (if jsOr registers.BX registers.CX = 0 then 1 else 0))] }
  else if instruction.mnemonic = "XOR DX, DX" then
    { phase := .execute, description := "Performing XOR on DX with itself",
      registerChanges := some [("DX", some 0), ("FLAGS", some 1)] }
  else if instruction.mnemonic = "NOT AX" then
    { phase := .execute, description := "Performing bitwise NOT on AX",
      registerChanges := some
        [("AX", some (jsAnd (jsNot registers.AX) 0xffff)),
         ("FLAGS", some (if jsAnd (jsNot registers.AX) 0xffff = 0 then 1 else 0))] }
  else if instruction.mnemonic = "JMP 0x100" then
    { phase := .execute, description := "Jumping to memory address 0x100",
      registerChanges := some [("PC", some 0x100)] }
  else if instruction.mnemonic = "JE 0x200" then
    { phase := .execute,
      description :=
        if registers.FLAGS = 1 then "Equal flag is set, jumping to address 0x200"
        else "Equal flag is not set, no jump",
      registerChanges :=
        some (if registers.FLAGS = 1 then [("PC", some 0x200)] else []) }
  else if instruction.mnemonic = "JNE 0x300" then
    { phase := .execute,
      description :=
        if registers.FLAGS = 0 then "Equal flag is not set, jumping to address 0x300"
        else "Equal flag is set, no jump",
      registerChanges :=
        some (if registers.FLAGS = 0 then [("PC", some 0x300)] else []) }
  else if instruction.mnemonic = "PUSH AX" then
    { phase := .execute, description := "Pushing AX onto the stack",
      registerChanges := some [("SP", some (registers.SP - 2))],
      memoryChanges := some [(toString (registers.SP - 2), registers.AX)] }
  else if instruction.mnemonic = "POP BX" then
    { phase := .execute, description := "Popping value from stack into BX",
      registerChanges := some
        [("BX", jsIndex memory registers.SP),
         ("SP", some (registers.SP + 2))] }
  else if instruction.mnemonic = "XCHG AX, BX" then
    { phase := .execute, description := "Exchanging values in AX and BX",
      registerChanges := some
        [("AX", some registers.BX), ("BX", some registers.AX)] }
  else if instruction.mnemonic = "MOV AX, [100]" then
    { phase := .execute, description := "Loading value from memory address 100 into AX",
      registerChanges := some [("AX", some (orZero (jsIndex memory 100)))] }
  else if instruction.mnemonic = "MOV [200], BX" then
    { phase := .execute, description := "Storing value of BX into memory address 200",
      memoryChanges := some [("200", registers.BX)] }
  else if instruction.mnemonic = "CMP AX, BX" then
    { phase := .execute, description := "Comparing AX with BX",
      registerChanges := some
        [("FLAGS", some (if registers.AX = registers.BX then 1 else 0))] }
  else if instruction.mnemonic = "INC CX" then
    { phase := .execute, description := "Incrementing CX by 1",
      registerChanges := some
        [("CX", some (registers.CX + 1)),
         ("FLAGS", some (if registers.CX + 1 = 0 then 1 else 0))] }
  else if instruction.mnemonic = "DEC BX" then
    { phase := .execute, description := "Decrementing BX by 1",
      registerChanges := some
        [("BX", some (registers.BX - 1)),
         ("FLAGS", some (if registers.BX - 1 = 0 then 1 else 0))] }
  else if instruction.mnemonic = "IN AX, 60h" then
    { phase := .execute, description := "Reading input from port 60h into AX",
      registerChanges := some [("AX", some 0x42)] }
  else if instruction.mnemonic = "OUT 61h, AL" then
    { phase := .execute, description := "Sending value in AL to output port 61h" }
  else if instruction.mnemonic = "CALL 0x400" then
    { phase := .execute, description := "Calling subroutine at address 0x400",
      registerChanges := some
        [("SP", some (registers.SP - 2)), ("PC", some 0x400)],
      memoryChanges := some [(toString (registers.SP - 2), registers.PC)] }
  else if instruction.mnemonic = "RET" then
    { phase := .execute, description := "Returning from subroutine",
      registerChanges := some
        [("PC", jsIndex memory registers.SP),
         ("SP", some (registers.SP + 2))] }
  else
    { phase := .execute, description := "Executing instruction" }

/-- The local state of one call of `executeInstruction`: the `steps` array
being built, and the `registers`/`memory` arguments threaded explicitly so
that mutation (or its absence) is visible in the embedding. -/
structure EngineState where
  steps : List ExecutionStep
  registers : RegisterState
  memory : List Int
deriving DecidableEq, Repr

/-- `steps.push(step)` (the only statement of `executeInstruction` that
writes to anything). -/
def pushStep (s : EngineState) (step : ExecutionStep) : EngineState :=
  { s with steps := s.steps ++ [step] }

/-- `executeInstruction` (cpu-logic.ts lines 3-330), statement by statement,
threading the call state explicitly. -/
def executeInstructionS (instruction : Instruction) (registers : RegisterState)
    (memory : List Int) : EngineState :=
  let s := EngineState.mk [] registers memory
  -- Fetch phase (lines 11-17)
  let s := pushStep s
    { phase := .fetch, description := "Fetching instruction from memory",
      registerChanges := some [("PC", some (registers.PC + 1))] }
  -- Decode phase (lines 20-23)
  let s := pushStep s
    { phase := .decode,
      description := "Decoding instruction: " ++ instruction.mnemonic }
  -- Execute phase: the switch (lines 26-309)
  let s := pushStep s (executeStepOf instruction registers memory)
  -- Memory access phase, if needed (lines 312-321)
  let s :=
    if instruction.mnemonic ∈ memoryMnemonics then
      pushStep s { phase := .memory, description := "Accessing memory" }
    else s
  -- Writeback phase (lines 324-327)
  pushStep s
    { phase := .writeback, description := "Writing results back to registers" }

/-- The return value of `executeInstruction`. -/
def executeInstruction (instruction : Instruction) (registers : RegisterState)
    (memory : List Int) : List ExecutionStep :=
  (executeInstructionS instruction registers memory).steps

/-- The mnemonics of the 25 `case` labels of the dispatch switch
(cpu-logic.ts lines 26-309), in source order. -/
def dispatchMnemonics : List String :=
  ["MOV AX, 42", "MOV BX, AX", "ADD AX, BX", "SUB CX, DX", "MUL BX",
   "DIV CX", "AND AX, 0xFF", "OR BX, CX", "XOR DX, DX", "NOT AX",
   "JMP 0x100", "JE 0x200", "JNE 0x300", "PUSH AX", "POP BX",
   "XCHG AX, BX", "MOV AX, [100]", "MOV [200], BX", "CMP AX, BX",
   "INC CX", "DEC BX", "IN AX, 60h", "OUT 61h, AL", "CALL 0x400", "RET"]

/-- The seven required register keys of `RegisterState` (types.ts 11-17). -/
def requiredRegisters : List String :=
  ["AX", "BX", "CX", "DX", "PC", "SP", "FLAGS"]

/-- Every key of a (possibly absent) `registerChanges` object lies in the
required register set. -/
def keysOK (o : Option (List (String × Option Int))) : Prop :=
  ∀ p ∈ o.getD [], p.1 ∈ requiredRegisters

/-- A JS object holding register values, as the TS index signature of
`RegisterState` allows: any string key, `none` for an absent key. -/
def RegMap : Type := String → Option Int

/-- The `Object.entries(step.registerChanges).forEach` overwrite loop of
cpu-simulator.tsx (lines 62-66) at the JS-object level: each listed pair
overwrites the named key with its (possibly `undefined`) value. -/
def applyRegChangesMap (cs : List (String × Option Int)) (g : RegMap) : RegMap :=
  cs.foldl (fun acc p => fun k => if k = p.1 then p.2 else acc k) g

/-- One assignment `newRegisters[reg] = value` of cpu-simulator.tsx line 64,
restricted to the seven required registers of the `RegisterState` record. -/
def applyRegisterValue (r : RegisterState) (reg : String) (value : Int) :
    RegisterState :=
  if reg = "AX" then { r with AX := value }
  else if reg = "BX" then { r with BX := value }
  else if reg = "CX" then { r with CX := value }
  else if reg = "DX" then { r with DX := value }
  else if reg = "PC" then { r with PC := value }
  else if reg = "SP" then { r with SP := value }
  else if reg = "FLAGS" then { r with FLAGS := value }
  else r

/-- The register half of the step-application loop of cpu-simulator.tsx
(lines 61-66) on the `RegisterState` record: each `Object.entries` pair of
`registerChanges` overwrites the named register in order. A pair carrying a
JS `undefined` value (`none`) leaves the integer-valued model unchanged (in
the browser it would make that register non-numeric, leaving the integer
model). -/
def applyStepRegisters (r : RegisterState) (s : ExecutionStep) : RegisterState :=
  (s.registerChanges.getD []).foldl
    (fun acc p =>
      match p.2 with
      | some v => applyRegisterValue acc p.1 v
      | none => acc) r

/-- The step at position `n` of a step list (`executionSteps[n]` on the
consumer side); a dummy generic step past the end. -/
def stepAt (steps : List ExecutionStep) (n : Nat) : ExecutionStep :=
  steps.getD n { phase := .execute, description := "" }

/-- Test fixture: a catalogue entry carrying the given mnemonic (the engine
dispatches on the mnemonic only). -/
def mkInstr (m : String) : Instruction :=
  { id := 0, mnemonic := m, description := "", type := .data, operands := 0 }

/-- Test fixture: the 64 zeroed memory cells the simulator starts from. -/
def zeros64 : List Int := List.replicate 64 0

end CpuSim

namespace CpuSim

/-! ### Helper lemmas -/

/-- Every branch of the dispatch switch pushes an execute-phase step. -/
lemma executeStepOf_phase (i : Instruction) (r : RegisterState) (m : List Int) :
    (executeStepOf i r m).phase = .execute := by
  simp only [executeStepOf, apply_ite ExecutionStep.phase, ite_self]

/-- Normal form of the step list: fetch, decode, the switch's execute step,
an optional memory step, writeback. -/
lemma executeInstruction_eq (i : Instruction) (r : RegisterState) (m : List Int) :
    executeInstruction i r m =
      [{ phase := .fetch, description := "Fetching instruction from memory",
         registerChanges := some [("PC", some (r.PC + 1))] },
       { phase := .decode, description := "Decoding instruction: " ++ i.mnemonic },
       executeStepOf i r m] ++
      (if i.mnemonic ∈ memoryMnemonics then
        [{ phase := .memory, description := "Accessing memory" }] else []) ++
      [{ phase := .writeback, description := "Writing results back to registers" }] := by
  unfold executeInstruction executeInstructionS pushStep
  split <;> rfl

/-- Position 2 of the step list is the switch's execute step. -/
lemma stepAt_two (i : Instruction) (r : RegisterState) (m : List Int) :
    stepAt (executeInstruction i r m) 2 = executeStepOf i r m := by
  rw [executeInstruction_eq]; rfl

end CpuSim

namespace CpuSim

/-! ### Claim theorems -/

/-- C1. For every instruction and every register/memory snapshot, the step
list returned by `executeInstruction` is non-empty, its first step has phase
fetch, its last step has phase writeback, it contains exactly one decode and
exactly one execute step, and it contains a memory step exactly when the
mnemonic is one of the seven memory-access mnemonics (so it has length 5 for
those and length 4 otherwise). -/
theorem executeInstruction_shape (i : Instruction) (r : RegisterState)
    (m : List Int) :
    executeInstruction i r m ≠ [] ∧
    ((executeInstruction i r m).head?.map ExecutionStep.phase) = some .fetch ∧
    ((executeInstruction i r m).getLast?.map ExecutionStep.phase) = some .writeback ∧
    ((executeInstruction i r m).map ExecutionStep.phase).count .decode = 1 ∧
    ((executeInstruction i r m).map ExecutionStep.phase).count .execute = 1 ∧
    ((executeInstruction i r m).map ExecutionStep.phase).count .memory =
      (if i.mnemonic ∈ memoryMnemonics then 1 else 0) ∧
    (executeInstruction i r m).length =
      (if i.mnemonic ∈ memoryMnemonics then 5 else 4) := by
  by_cases hm : i.mnemonic ∈ memoryMnemonics <;>
    simp [executeInstruction_eq, hm, executeStepOf_phase, List.count_cons,
      List.getLast?]

end CpuSim

namespace CpuSim

/-- C2. For every instruction and snapshot, the first returned step is
exactly the fetch step with description "Fetching instruction from memory"
and `registerChanges` assigning `PC := registers.PC + 1` — the PC
auto-increment appears in the fetch step for every mnemonic, including the
jump/call/return mnemonics whose execute step writes `PC` as well. -/
theorem fetch_step_increments_pc (i : Instruction) (r : RegisterState)
    (m : List Int) :
    (executeInstruction i r m).head? =
      some { phase := .fetch, description := "Fetching instruction from memory",
             registerChanges := some [("PC", some (r.PC + 1))] } := by
  rw [executeInstruction_eq]; rfl

/-- C6. `executeInstruction` does not mutate its `registers` or `memory`
arguments: in the statement-by-statement embedding of the call (which
threads both arguments through every statement), the state after the last
statement still holds the original argument values; all deltas live only in
the returned step descriptors. -/
theorem executeInstruction_non_mutation (i : Instruction) (r : RegisterState)
    (m : List Int) :
    (executeInstructionS i r m).registers = r ∧
    (executeInstructionS i r m).memory = m := by
  refine ⟨?_, ?_⟩ <;> (simp only [executeInstructionS, pushStep]; split <;> rfl)

/-- C7. `executeInstruction` is deterministic: two calls on equal inputs
return identical step sequences. (The source computes the steps from its
arguments alone, with no randomness, time, or I/O; the embedding is
therefore a pure function, and the property is its congruence.) -/
theorem executeInstruction_deterministic (i : Instruction) (r : RegisterState)
    (m : List Int) :
    executeInstruction i r m = executeInstruction i r m := rfl

end CpuSim

namespace CpuSim

/-- Reduction of the dispatch switch at mnemonic `DIV CX`. -/
lemma executeStepOf_divcx (i : Instruction) (r : RegisterState) (m : List Int)
    (h : i.mnemonic = "DIV CX") :
    executeStepOf i r m =
      if r.CX = 0 then
        { phase := .execute, description := "Error: Division by zero",
          registerChanges := some [("FLAGS", some 1)] }
      else
        { phase := .execute, description := "Dividing AX by CX",
          registerChanges := some
            [("AX", some (Int.fdiv r.AX r.CX)),
             ("DX", some (Int.tmod r.AX r.CX)),
             ("FLAGS", some (if Int.fdiv r.AX r.CX = 0 then 1 else 0))] } := by
  unfold executeStepOf; rw [h]; rfl

/-- C3. For mnemonic "DIV CX": with `CX = 0` the execute step reports
"Error: Division by zero" and sets only `FLAGS := 1` (no AX or DX entry),
and the step list is still produced in full (no fault; 4 steps); with
`CX ≠ 0` the execute step sets `AX` to the floored quotient, `DX` to the JS
`%` remainder, and `FLAGS` to 1 exactly when the quotient is 0, all computed
from the pre-instruction snapshot. -/
theorem div_cx_spec (i : Instruction) (r : RegisterState) (m : List Int)
    (h : i.mnemonic = "DIV CX") :
    (executeInstruction i r m).length = 4 ∧
    (r.CX = 0 →
      stepAt (executeInstruction i r m) 2 =
        { phase := .execute, description := "Error: Division by zero",
          registerChanges := some [("FLAGS", some 1)] }) ∧
    (r.CX ≠ 0 →
      stepAt (executeInstruction i r m) 2 =
        { phase := .execute, description := "Dividing AX by CX",
          registerChanges := some
            [("AX", some (Int.fdiv r.AX r.CX)),
             ("DX", some (Int.tmod r.AX r.CX)),
             ("FLAGS", some (if Int.fdiv r.AX r.CX = 0 then 1 else 0))] }) := by
  refine ⟨?_, ?_, ?_⟩
  · rw [executeInstruction_eq, if_neg (by rw [h]; decide)]; rfl
  · intro h0
    rw [stepAt_two, executeStepOf_divcx i r m h, if_pos h0]
  · intro h0
    rw [stepAt_two, executeStepOf_divcx i r m h, if_neg h0]

/-- Witness for C3: scenario B (CX = 0) and scenario C (AX = 10, CX = 3)
of the spec, on the 64-cell zero memory. -/
theorem div_cx_spec_witness :
    stepAt (executeInstruction (mkInstr "DIV CX")
        (RegisterState.mk 10 0 0 0 0 0 0) zeros64) 2 =
      { phase := .execute, description := "Error: Division by zero",
        registerChanges := some [("FLAGS", some 1)] } ∧
    stepAt (executeInstruction (mkInstr "DIV CX")
        (RegisterState.mk 10 0 3 0 0 0 0) zeros64) 2 =
      { phase := .execute, description := "Dividing AX by CX",
        registerChanges := some
          [("AX", some 3), ("DX", some 1), ("FLAGS", some 0)] } := by
  constructor
  · exact (div_cx_spec (mkInstr "DIV CX") (RegisterState.mk 10 0 0 0 0 0 0)
      zeros64 rfl).2.1 rfl
  · have h := (div_cx_spec (mkInstr "DIV CX") (RegisterState.mk 10 0 3 0 0 0 0)
      zeros64 rfl).2.2 (by decide)
    rw [h]; decide

end CpuSim

namespace CpuSim

/-- Reduction of the dispatch switch at mnemonic `CALL 0x400`. -/
lemma executeStepOf_call (i : Instruction) (r : RegisterState) (m : List Int)
    (h : i.mnemonic = "CALL 0x400") :
    executeStepOf i r m =
      { phase := .execute, description := "Calling subroutine at address 0x400",
        registerChanges := some
          [("SP", some (r.SP - 2)), ("PC", some 0x400)],
        memoryChanges := some [(toString (r.SP - 2), r.PC)] } := by
  unfold executeStepOf; rw [h]; rfl

/-- C4. For mnemonic "CALL 0x400" and every snapshot, the execute step sets
`SP := registers.SP - 2` and `PC := 0x400`, and its `memoryChanges` write
the pre-instruction `registers.PC` — not the fetch-incremented `PC + 1` — to
address `registers.SP - 2`. -/
theorem call_spec (i : Instruction) (r : RegisterState) (m : List Int)
    (h : i.mnemonic = "CALL 0x400") :
    stepAt (executeInstruction i r m) 2 =
      { phase := .execute, description := "Calling subroutine at address 0x400",
        registerChanges := some
          [("SP", some (r.SP - 2)), ("PC", some 0x400)],
        memoryChanges := some [(toString (r.SP - 2), r.PC)] } := by
  rw [stepAt_two, executeStepOf_call i r m h]

/-- Witness for C4: with `PC = 7` and `SP = 10`, the call step writes the
return address 7 (not 8) to address 8 and jumps to 0x400. -/
theorem call_spec_witness :
    stepAt (executeInstruction (mkInstr "CALL 0x400")
        (RegisterState.mk 0 0 0 0 7 10 0) zeros64) 2 =
      { phase := .execute, description := "Calling subroutine at address 0x400",
        registerChanges := some [("SP", some 8), ("PC", some 0x400)],
        memoryChanges := some [("8", 7)] } := by
  have h := call_spec (mkInstr "CALL 0x400") (RegisterState.mk 0 0 0 0 7 10 0)
    zeros64 rfl
  rw [h]; decide

end CpuSim

namespace CpuSim

/-- C5. For every mnemonic matching none of the 25 dispatch entries, the
engine raises no fault and returns exactly the 4-step sequence fetch,
decode, generic execute ("Executing instruction", no register or memory
changes), writeback — with no memory step. -/
theorem unknown_mnemonic_spec (i : Instruction) (r : RegisterState)
    (m : List Int) (h : i.mnemonic ∉ dispatchMnemonics) :
    executeInstruction i r m =
      [{ phase := .fetch, description := "Fetching instruction from memory",
         registerChanges := some [("PC", some (r.PC + 1))] },
       { phase := .decode, description := "Decoding instruction: " ++ i.mnemonic },
       { phase := .execute, description := "Executing instruction" },
       { phase := .writeback,
         description := "Writing results back to registers" }] := by
  simp only [dispatchMnemonics, List.mem_cons, List.not_mem_nil, or_false,
    not_or] at h
  obtain ⟨h1, h2, h3, h4, h5, h6, h7, h8, h9, h10, h11, h12, h13, h14, h15,
    h16, h17, h18, h19, h20, h21, h22, h23, h24, h25⟩ := h
  rw [executeInstruction_eq,
    if_neg (by simp [memoryMnemonics, h11, h14, h15, h17, h18, h24, h25])]
  unfold executeStepOf
  rw [if_neg h1, if_neg h2, if_neg h3, if_neg h4, if_neg h5, if_neg h6,
    if_neg h7, if_neg h8, if_neg h9, if_neg h10, if_neg h11, if_neg h12,
    if_neg h13, if_neg h14, if_neg h15, if_neg h16, if_neg h17, if_neg h18,
    if_neg h19, if_neg h20, if_neg h21, if_neg h22, if_neg h23, if_neg h24,
    if_neg h25]
  rfl

/-- Witness for C5: the unknown mnemonic "NOP" (scenario F of the spec). -/
theorem unknown_mnemonic_spec_witness :
    executeInstruction (mkInstr "NOP") (RegisterState.mk 0 0 0 0 0 0 0)
        zeros64 =
      [{ phase := .fetch, description := "Fetching instruction from memory",
         registerChanges := some [("PC", some 1)] },
       { phase := .decode, description := "Decoding instruction: NOP" },
       { phase := .execute, description := "Executing instruction" },
       { phase := .writeback,
         description := "Writing results back to registers" }] := by
  have h := unknown_mnemonic_spec (mkInstr "NOP")
    (RegisterState.mk 0 0 0 0 0 0 0) zeros64 (by decide)
  rw [h]; decide

end CpuSim

namespace CpuSim

/-- Every branch of the dispatch switch emits register changes keyed only by
required registers. -/
lemma executeStepOf_keys (i : Instruction) (r : RegisterState) (m : List Int) :
    keysOK (executeStepOf i r m).registerChanges := by
  simp only [executeStepOf, apply_ite ExecutionStep.registerChanges,
    apply_ite keysOK]
  simp [keysOK, requiredRegisters, List.forall_mem_cons]

/-- Overwriting a JS register object only at listed keys leaves every other
key untouched. -/
lemma applyRegChangesMap_not_mem (cs : List (String × Option Int)) (g : RegMap)
    (k : String) (hk : ∀ p ∈ cs, p.1 ≠ k) :
    applyRegChangesMap cs g k = g k := by
  induction cs generalizing g with
  | nil => rfl
  | cons p cs ih =>
    have h1 : applyRegChangesMap (p :: cs) g =
        applyRegChangesMap cs (fun x => if x = p.1 then p.2 else g x) := rfl
    rw [h1, ih _ (fun q hq => hk q (List.mem_cons_of_mem p hq))]
    simp [Ne.symm (hk p (List.mem_cons_self p cs))]

/-- C8. Every key appearing in any step's `registerChanges` belongs to the
required register set {AX, BX, CX, DX, PC, SP, FLAGS}; consequently applying
a step's register changes to a JS register object (by the consumer's
per-entry overwrite) preserves every key outside the required set. -/
theorem register_change_keys (i : Instruction) (r : RegisterState)
    (m : List Int) (s : ExecutionStep) (hs : s ∈ executeInstruction i r m) :
    keysOK s.registerChanges ∧
    ∀ (g : RegMap) (k : String), k ∉ requiredRegisters →
      applyRegChangesMap (s.registerChanges.getD []) g k = g k := by
  have hkeys : keysOK s.registerChanges := by
    rw [executeInstruction_eq] at hs
    by_cases hm : i.mnemonic ∈ memoryMnemonics
    · simp only [hm, if_true, List.cons_append, List.nil_append,
        List.mem_cons, List.not_mem_nil, or_false] at hs
      rcases hs with h | h | h | h | h <;> subst h <;>
        first
          | exact executeStepOf_keys i r m
          | simp [keysOK, requiredRegisters, List.forall_mem_cons]
    · simp only [hm, if_false, List.cons_append, List.nil_append,
        List.mem_cons, List.not_mem_nil, or_false] at hs
      rcases hs with h | h | h | h <;> subst h <;>
        first
          | exact executeStepOf_keys i r m
          | simp [keysOK, requiredRegisters, List.forall_mem_cons]
  refine ⟨hkeys, fun g k hk => ?_⟩
  exact applyRegChangesMap_not_mem _ g k
    (fun p hp hpk => hk (hpk ▸ hkeys p hp))

/-- Witness for C8: the fetch step of a "MOV AX, 42" run writes only `PC`,
and applying it to a register object leaves the foreign key "R8" intact. -/
theorem register_change_keys_witness :
    keysOK (stepAt (executeInstruction (mkInstr "MOV AX, 42")
        (RegisterState.mk 0 0 0 0 0 0 0) zeros64) 0).registerChanges ∧
    applyRegChangesMap
        ((stepAt (executeInstruction (mkInstr "MOV AX, 42")
          (RegisterState.mk 0 0 0 0 0 0 0) zeros64) 0).registerChanges.getD [])
        (fun _ => some 5) "R8" = some 5 := by
  have hw := register_change_keys (mkInstr "MOV AX, 42")
    (RegisterState.mk 0 0 0 0 0 0 0) zeros64
    (stepAt (executeInstruction (mkInstr "MOV AX, 42")
      (RegisterState.mk 0 0 0 0 0 0 0) zeros64) 0)
    (by decide)
  exact ⟨hw.1, hw.2 (fun _ => some 5) "R8" (by decide)⟩

end CpuSim

namespace CpuSim

/-- An out-of-range JS array read yields `undefined`. -/
lemma jsIndex_eq_none (m : List Int) (i : Int)
    (h : ¬(0 ≤ i ∧ i < (m.length : Int))) : jsIndex m i = none := by
  unfold jsIndex
  rcases lt_or_ge i 0 with h0 | h0
  · rw [if_pos h0]
  · rw [if_neg (not_lt.mpr h0)]
    have hlen : (m.length : Int) ≤ i := by
      by_contra hc
      exact h ⟨h0, not_le.mp hc⟩
    exact List.get?_eq_none.mpr (by omega)

/-- Reduction of the dispatch switch at mnemonic `MOV AX, [100]`. -/
lemma executeStepOf_movload (i : Instruction) (r : RegisterState)
    (m : List Int) (h : i.mnemonic = "MOV AX, [100]") :
    executeStepOf i r m =
      { phase := .execute,
        description := "Loading value from memory address 100 into AX",
        registerChanges := some [("AX", some (orZero (jsIndex m 100)))] } := by
  unfold executeStepOf; rw [h]; rfl

/-- Reduction of the dispatch switch at mnemonic `POP BX`. -/
lemma executeStepOf_pop (i : Instruction) (r : RegisterState)
    (m : List Int) (h : i.mnemonic = "POP BX") :
    executeStepOf i r m =
      { phase := .execute, description := "Popping value from stack into BX",
        registerChanges := some
          [("BX", jsIndex m r.SP), ("SP", some (r.SP + 2))] } := by
  unfold executeStepOf; rw [h]; rfl

/-- Reduction of the dispatch switch at mnemonic `RET`. -/
lemma executeStepOf_ret (i : Instruction) (r : RegisterState)
    (m : List Int) (h : i.mnemonic = "RET") :
    executeStepOf i r m =
      { phase := .execute, description := "Returning from subroutine",
        registerChanges := some
          [("PC", jsIndex m r.SP), ("SP", some (r.SP + 2))] } := by
  unfold executeStepOf; rw [h]; rfl

/-- C9. Memory reads are asymmetrically guarded: for "MOV AX, [100]" the
execute step's AX value defaults to 0 when index 100 is absent from memory,
but for "POP BX" and "RET" the read at `memory[registers.SP]` is unguarded —
for `SP` outside `[0, memory.length)` the emitted BX (respectively PC)
change is the absent/undefined cell value (`none`) rather than 0. -/
theorem memory_read_guarding (i : Instruction) (r : RegisterState)
    (m : List Int) :
    (i.mnemonic = "MOV AX, [100]" → (m.length : Int) ≤ 100 →
      stepAt (executeInstruction i r m) 2 =
        { phase := .execute,
          description := "Loading value from memory address 100 into AX",
          registerChanges := some [("AX", some 0)] }) ∧
    (i.mnemonic = "POP BX" → ¬(0 ≤ r.SP ∧ r.SP < (m.length : Int)) →
      stepAt (executeInstruction i r m) 2 =
        { phase := .execute,
          description := "Popping value from stack into BX",
          registerChanges := some
            [("BX", none), ("SP", some (r.SP + 2))] }) ∧
    (i.mnemonic = "RET" → ¬(0 ≤ r.SP ∧ r.SP < (m.length : Int)) →
      stepAt (executeInstruction i r m) 2 =
        { phase := .execute, description := "Returning from subroutine",
          registerChanges := some
            [("PC", none), ("SP", some (r.SP + 2))] }) := by
  refine ⟨fun h hlen => ?_, fun h hsp => ?_, fun h hsp => ?_⟩
  · have hnone : jsIndex m 100 = none := jsIndex_eq_none m 100 (by omega)
    rw [stepAt_two, executeStepOf_movload i r m h, hnone]
    rfl
  · have hnone : jsIndex m r.SP = none := jsIndex_eq_none m r.SP hsp
    rw [stepAt_two, executeStepOf_pop i r m h, hnone]
  · have hnone : jsIndex m r.SP = none := jsIndex_eq_none m r.SP hsp
    rw [stepAt_two, executeStepOf_ret i r m h, hnone]

/-- Witness for C9: on the 64-cell zero memory with `SP = 70`, the load from
address 100 yields 0 while POP and RET emit the undefined read. -/
theorem memory_read_guarding_witness :
    stepAt (executeInstruction (mkInstr "MOV AX, [100]")
        (RegisterState.mk 0 0 0 0 0 70 0) zeros64) 2 =
      { phase := .execute,
        description := "Loading value from memory address 100 into AX",
        registerChanges := some [("AX", some 0)] } ∧
    stepAt (executeInstruction (mkInstr "POP BX")
        (RegisterState.mk 0 0 0 0 0 70 0) zeros64) 2 =
      { phase := .execute, description := "Popping value from stack into BX",
        registerChanges := some [("BX", none), ("SP", some 72)] } ∧
    stepAt (executeInstruction (mkInstr "RET")
        (RegisterState.mk 0 0 0 0 0 70 0) zeros64) 2 =
      { phase := .execute, description := "Returning from subroutine",
        registerChanges := some [("PC", none), ("SP", some 72)] } := by
  refine ⟨?_, ?_, ?_⟩
  · exact (memory_read_guarding (mkInstr "MOV AX, [100]")
      (RegisterState.mk 0 0 0 0 0 70 0) zeros64).1 rfl (by decide)
  · have h := (memory_read_guarding (mkInstr "POP BX")
      (RegisterState.mk 0 0 0 0 0 70 0) zeros64).2.1 rfl (by decide)
    rw [h]; decide
  · have h := (memory_read_guarding (mkInstr "RET")
      (RegisterState.mk 0 0 0 0 0 70 0) zeros64).2.2 rfl (by decide)
    rw [h]; decide

end CpuSim

namespace CpuSim

/-- Reduction of the dispatch switch at mnemonic `XCHG AX, BX`. -/
lemma executeStepOf_xchg (i : Instruction) (r : RegisterState)
    (m : List Int) (h : i.mnemonic = "XCHG AX, BX") :
    executeStepOf i r m =
      { phase := .execute, description := "Exchanging values in AX and BX",
        registerChanges := some
          [("AX", some r.BX), ("BX", some r.AX)] } := by
  unfold executeStepOf; rw [h]; rfl

/-- C10. Executing "XCHG AX, BX" twice is the identity on (AX, BX): applying
the execute step's register changes of one call to the snapshot, then the
execute step's register changes of a second call on the result, restores the
original AX and BX — both reads in each call come from that call's
pre-instruction snapshot, a true swap. -/
theorem xchg_twice_identity (i : Instruction) (r : RegisterState)
    (m m' : List Int) (h : i.mnemonic = "XCHG AX, BX") :
    (applyStepRegisters (applyStepRegisters r (stepAt (executeInstruction i r m) 2))
        (stepAt (executeInstruction i
          (applyStepRegisters r (stepAt (executeInstruction i r m) 2)) m') 2)).AX
      = r.AX ∧
    (applyStepRegisters (applyStepRegisters r (stepAt (executeInstruction i r m) 2))
        (stepAt (executeInstruction i
          (applyStepRegisters r (stepAt (executeInstruction i r m) 2)) m') 2)).BX
      = r.BX := by
  rw [stepAt_two, stepAt_two, executeStepOf_xchg i r m h]
  rw [executeStepOf_xchg i _ m' h]
  exact ⟨rfl, rfl⟩

/-- Witness for C10: starting from AX = 3, BX = 5, two XCHG executions
restore AX = 3 and BX = 5. -/
theorem xchg_twice_identity_witness :
    (applyStepRegisters
        (applyStepRegisters (RegisterState.mk 3 5 0 0 0 0 0)
          (stepAt (executeInstruction (mkInstr "XCHG AX, BX")
            (RegisterState.mk 3 5 0 0 0 0 0) zeros64) 2))
        (stepAt (executeInstruction (mkInstr "XCHG AX, BX")
          (applyStepRegisters (RegisterState.mk 3 5 0 0 0 0 0)
            (stepAt (executeInstruction (mkInstr "XCHG AX, BX")
              (RegisterState.mk 3 5 0 0 0 0 0) zeros64) 2)) zeros64) 2)).AX = 3 ∧
    (applyStepRegisters
        (applyStepRegisters (RegisterState.mk 3 5 0 0 0 0 0)
          (stepAt (executeInstruction (mkInstr "XCHG AX, BX")
            (RegisterState.mk 3 5 0 0 0 0 0) zeros64) 2))
        (stepAt (executeInstruction (mkInstr "XCHG AX, BX")
          (applyStepRegisters (RegisterState.mk 3 5 0 0 0 0 0)
            (stepAt (executeInstruction (mkInstr "XCHG AX, BX")
              (RegisterState.mk 3 5 0 0 0 0 0) zeros64) 2)) zeros64) 2)).BX = 5 :=
  xchg_twice_identity (mkInstr "XCHG AX, BX") (RegisterState.mk 3 5 0 0 0 0 0)
    zeros64 zeros64 rfl

end CpuSim
